import Mathlib

/-!
Verification development for the `sshuttle_rust` client core
(`src/src/client.rs`).  The coordinator (`main`), the firewall
setup/restore lifecycle (`start_firewall`), the tunnel child supervisor
(`run_ssh`), the listener pool and connection forwarder (`run_client`)
are embedded shallowly: external effects (command execution, socket
reads, process exits, channel state) are passed in as explicit
environments, and each function is translated into a pure Lean function
over them.
-/

namespace Client

/-- Modelled from the spec: error type of the command-execution layer
(`src/command.rs` is not under `src/`).  Carries a message, as the
`From<CommandError>` impl in `client.rs` only formats it. -/
structure CommandError where
  message : String
  deriving DecidableEq, Repr

/-- Modelled from the spec: error type of the firewall planning layer
(`src/firewall.rs` is not under `src/`). -/
structure FirewallError where
  message : String
  deriving DecidableEq, Repr

/-- Join error of a spawned task (`tokio::task::JoinError`), carried as a
message as in the `From<JoinError>` impl in `client.rs`. -/
structure JoinError where
  message : String
  deriving DecidableEq, Repr

/-- An I/O error (`std::io::Error`), carried as a message as in the
`From<std::io::Error>` impl in `client.rs`. -/
structure IoError where
  message : String
  deriving DecidableEq, Repr

/-- `ClientError` from `src/src/client.rs` lines 33-36: a message string. -/
structure ClientError where
  message : String
  deriving DecidableEq, Repr

/-- `impl From<FirewallError> for ClientError` (client.rs lines 44-50). -/
def clientErrorOfFirewall (e : FirewallError) : ClientError :=
  { message := "FirewallError: " ++ e.message }

/-- `impl From<JoinError> for ClientError` (client.rs lines 52-58). -/
def clientErrorOfJoin (e : JoinError) : ClientError :=
  { message := "JoinError: " ++ e.message }

/-- `impl From<CommandError> for ClientError` (client.rs lines 60-66). -/
def clientErrorOfCommand (e : CommandError) : ClientError :=
  { message := "CommandError: " ++ e.message }

/-- `impl From<std::io::Error> for ClientError` (client.rs lines 68-74). -/
def clientErrorOfIo (e : IoError) : ClientError :=
  { message := "std::io::Error: " ++ e.message }

/-- Modelled from the spec: a firewall command is one ordered shell-level
command of a setup or restore sequence (`src/command.rs` is not under
`src/`); only its identity matters here. -/
structure Command where
  line : String
  deriving DecidableEq, Repr

/-- Modelled from the spec: `Commands.run_all` runs the ordered commands
one at a time; "Any command whose exit status is non-zero fails the
sequence; the remaining commands in that sequence are NOT executed."
`exec` gives each command's exit result.  Returns the list of commands
actually executed (in order) together with the overall result. -/
def runAll (exec : Command → Except CommandError Unit) :
    List Command → List Command × Except CommandError Unit
  | [] => ([], Except.ok ())
  | c :: cs =>
    match exec c with
    | Except.error e => ([c], Except.error e)
    | Except.ok () =>
      let r := runAll exec cs
      (c :: r.1, r.2)

/-- The firewall planning results seen by `start_firewall`
(client.rs lines 301-303): the setup and restore command sequences
produced by `NatFirewall::setup_firewall` / `restore_firewall`. -/
structure FirewallPlan where
  setup : Except FirewallError (List Command)
  restore : Except FirewallError (List Command)

/-- `start_firewall` (client.rs lines 277-308): plan setup, plan restore,
then `commands.run_all().await?`; on success return the restore
(shutdown) commands.  First component: the trace of commands executed. -/
def start_firewall (exec : Command → Except CommandError Unit)
    (plan : FirewallPlan) : List Command × Except ClientError (List Command) :=
  match plan.setup with
  | Except.error e => ([], Except.error (clientErrorOfFirewall e))
  | Except.ok commands =>
    match plan.restore with
    | Except.error e => ([], Except.error (clientErrorOfFirewall e))
    | Except.ok shutdown_commands =>
      let r := runAll exec commands
      match r.2 with
      | Except.error e => (r.1, Except.error (clientErrorOfCommand e))
      | Except.ok () => (r.1, Except.ok shutdown_commands)

/-- Which branch of the coordinator's `select!` (client.rs lines 152-167)
completes first. -/
inductive SelectWinner where
  | ssh
  | client
  deriving DecidableEq, Repr

/-- The environment of one execution of the coordinator `main`
(client.rs lines 87-181): the firewall plan, the result of executing each
shell command, which `select!` branch completes first, and that branch's
result.  `run_ssh` itself always returns `Ok((tx, handle))` (the fallible
spawn happens inside the spawned task), so it contributes no error here;
the ssh branch yields the join result of the supervisor task. -/
structure MainEnv where
  exec : Command → Except CommandError Unit
  plan : FirewallPlan
  winner : SelectWinner
  sshJoin : Except JoinError (Except IoError Unit)
  clientResult : Except ClientError Unit

/-- The coordinator `main` (client.rs lines 87-181), as the list of shell
commands it executes (in order) together with its return value:
`start_firewall(config).await?`, then `run_ssh`, then `select!` with
`res??` on the ssh branch and `res?` on the client branch, then
`ssh_tx.send(Shutdown)` (result ignored), then
`shutdown_commands.run_all().await?`. -/
def main (env : MainEnv) : List Command × Except ClientError Unit :=
  let fw := start_firewall env.exec env.plan
  match fw.2 with
  | Except.error e => (fw.1, Except.error e)
  | Except.ok shutdown_commands =>
    let selectResult : Except ClientError Unit :=
      match env.winner with
      | SelectWinner.ssh =>
        match env.sshJoin with
        | Except.error e => Except.error (clientErrorOfJoin e)
        | Except.ok (Except.error e) => Except.error (clientErrorOfIo e)
        | Except.ok (Except.ok ()) => Except.ok ()
      | SelectWinner.client =>
        match env.clientResult with
        | Except.error e => Except.error e
        | Except.ok () => Except.ok ()
    match selectResult with
    | Except.error e => (fw.1, Except.error e)
    | Except.ok () =>
      let rs := runAll env.exec shutdown_commands
      match rs.2 with
      | Except.error e => (fw.1 ++ rs.1, Except.error (clientErrorOfCommand e))
      | Except.ok () => (fw.1 ++ rs.1, Except.ok ())

/-- `run_client` (client.rs lines 310-477), observed at the granularity the
coordinator sees: it binds each listen address in turn
(`TcpListener::bind(addr).await?`), spawning a detached accept loop per
success, and after the loop over addresses it enters `loop { sleep }`,
never returning.  `binds` is the list of bind results; `none` models
divergence (the infinite sleep loop). -/
def run_client (binds : List (Except IoError Unit)) :
    Option (Except ClientError Unit) :=
  match binds with
  | [] => none
  | Except.error e :: _ => some (Except.error (clientErrorOfIo e))
  | Except.ok () :: rest => run_client rest

/-- The completion of one socket read, as observed by a branch of the
splice loop's `select!` (client.rs lines 416-462): `Ok(0)` is end of
stream, `Ok(n)` delivers `n` fresh bytes into the branch's buffer, and
`Err` is a read error. -/
inductive ReadRes where
  | eof
  | data (bytes : List Nat)
  | ioErr (msg : String)
  deriving DecidableEq, Repr

/-- One iteration of the splice loop resolves either the
`local.read(&mut local_buf)` branch or the `remote.read(&mut remote_buf)`
branch. -/
inductive SpliceEv where
  | localRead (r : ReadRes)
  | remoteRead (r : ReadRes)
  deriving DecidableEq, Repr

/-- State of the splice loop (client.rs lines 352-414): the two 1024-byte
read buffers, the bytes written to each socket so far, and the
`shutdown_local` / `shutdown_remote` flags. -/
structure SpliceState where
  localBuf : List Nat
  remoteBuf : List Nat
  writtenRemote : List Nat
  writtenLocal : List Nat
  shutdownLocal : Bool
  shutdownRemote : Bool
  deriving DecidableEq, Repr

/-- The initial splice state: both buffers are `[0; 1024]`
(client.rs lines 353 and 411), nothing written, no half shut down. -/
def spliceInit : SpliceState :=
  { localBuf := List.replicate 1024 0
    remoteBuf := List.replicate 1024 0
    writtenRemote := []
    writtenLocal := []
    shutdownLocal := false
    shutdownRemote := false }

/-- One iteration of the splice loop's `select!`
(client.rs lines 417-457).  A read of `bs` overwrites the first
`bs.length` bytes of that branch's buffer.  On the local branch,
`Ok(n)` does `remote.write_all(&local_buf[..n])`; `Ok(0)` and `Err` do
`remote.shutdown()` and set `shutdown_remote`.  On the remote branch,
`Ok(0)` and `Err` do `local.shutdown()` and set `shutdown_local`, while
`Ok(n)` does `local.write_all(&local_buf[..n])` (line 445) — it writes
from `local_buf`, not from `remote_buf`.  The `write_all` and `shutdown`
calls are modelled as succeeding (their `.unwrap()` would otherwise end
the task). -/
def spliceStep (s : SpliceState) : SpliceEv → SpliceState
  | SpliceEv.localRead ReadRes.eof => { s with shutdownRemote := true }
  | SpliceEv.localRead (ReadRes.ioErr _) => { s with shutdownRemote := true }
  | SpliceEv.localRead (ReadRes.data bs) =>
    let buf := bs ++ s.localBuf.drop bs.length
    { s with
      localBuf := buf
      writtenRemote := s.writtenRemote ++ buf.take bs.length }
  | SpliceEv.remoteRead ReadRes.eof => { s with shutdownLocal := true }
  | SpliceEv.remoteRead (ReadRes.ioErr _) => { s with shutdownLocal := true }
  | SpliceEv.remoteRead (ReadRes.data bs) =>
    let buf := bs ++ s.remoteBuf.drop bs.length
    { s with
      remoteBuf := buf
      writtenLocal := s.writtenLocal ++ s.localBuf.take bs.length }

/-- The splice loop (client.rs lines 416-462): process events until
`shutdown_local && shutdown_remote` holds after an iteration (the `break`
at line 460), or the event schedule runs out.  Returns the state reached
and the unprocessed remainder of the schedule (nonempty exactly when the
loop broke early). -/
def spliceRun (s : SpliceState) : List SpliceEv → SpliceState × List SpliceEv
  | [] => (s, [])
  | e :: rest =>
    let s' := spliceStep s e
    if s'.shutdownLocal && s'.shutdownRemote then (s', rest)
    else spliceRun s' rest

/-- Outcome of one detached per-connection forwarder task. -/
inductive TaskOutcome where
  | completedSplice (final : SpliceState)
  | panicked (msg : String)
  deriving DecidableEq, Repr

/-- The per-connection forwarder task (client.rs lines 351-464):
`getsockopt(..).unwrap()` for the original destination, then
`Socks5Stream::connect(..).await.unwrap()`, then the splice loop.
An error in either fallible step ends the task with a panic (the
`.unwrap()` calls at lines 377/384 and 410); otherwise the splice loop
runs over the connection's read events. -/
def connTask (q : Except String (String × Nat)) (connect : Except String Unit)
    (events : List SpliceEv) : TaskOutcome :=
  match q with
  | Except.error e => TaskOutcome.panicked e
  | Except.ok _ =>
    match connect with
    | Except.error e => TaskOutcome.panicked e
    | Except.ok () => TaskOutcome.completedSplice (spliceRun spliceInit events).1

instance exceptDecEq {ε α : Type} [DecidableEq ε] [DecidableEq α] :
    DecidableEq (Except ε α) := fun x y =>
  match x, y with
  | Except.ok a, Except.ok b =>
    if h : a = b then isTrue (by rw [h])
    else isFalse (by simp only [Except.ok.injEq]; exact h)
  | Except.error a, Except.error b =>
    if h : a = b then isTrue (by rw [h])
    else isFalse (by simp only [Except.error.injEq]; exact h)
  | Except.ok _, Except.error _ => isFalse (by simp)
  | Except.error _, Except.ok _ => isFalse (by simp)

/-- Everything one accepted connection's task consumes: the original
destination query result, the SOCKS5 connect result, and the read events
of the splice. -/
structure ConnSpec where
  q : Except String (String × Nat)
  connect : Except String Unit
  events : List SpliceEv
  deriving DecidableEq, Repr

/-- Outcome of one accept loop task as seen from outside. -/
inductive PoolOutcome where
  | panicked (msg : String)
  | accepting
  deriving DecidableEq, Repr

/-- The accept loop of one listener (client.rs lines 347-466):
`listener.accept().await.unwrap()` — an accept error ends the loop task
with a panic — and each accepted connection spawns a detached forwarder
task (`tokio::spawn`, its `JoinHandle` discarded).  Returns the loop's
own outcome and the outcomes of the spawned forwarder tasks. -/
def acceptLoop : List (Except String ConnSpec) → PoolOutcome × List TaskOutcome
  | [] => (PoolOutcome.accepting, [])
  | Except.error e :: _ => (PoolOutcome.panicked e, [])
  | Except.ok c :: rest =>
    let r := acceptLoop rest
    (r.1, connTask c.q c.connect c.events :: r.2)

/-- The error of a failed `mpsc` send (`tokio::sync::mpsc::error::SendError`). -/
structure SendError where
  deriving DecidableEq, Repr

/-- Outcome of one invocation of the OS interrupt handler. -/
inductive HandlerOutcome where
  | ok
  | panicked (msg : String)
  deriving DecidableEq, Repr

/-- The OS interrupt handler body (client.rs lines 231-236):
`tx_clone.blocking_send(Message::Shutdown).expect("Could not send signal on channel.")`. -/
def ctrlcHandler (sendResult : Except SendError Unit) : HandlerOutcome :=
  match sendResult with
  | Except.ok () => HandlerOutcome.ok
  | Except.error _ => HandlerOutcome.panicked "Could not send signal on channel."

/-- State of the capacity-1 control channel (created at client.rs
line 217) at the moment of a send. -/
inductive ChanState where
  | idle
  | full
  | closed
  deriving DecidableEq, Repr

/-- Modelled from tokio's `mpsc::Sender::blocking_send` contract: on a
channel with free capacity the send succeeds; on a full channel the call
waits for capacity and then succeeds; it returns an error exactly when
the channel is closed (the receiver was dropped). -/
def blockingSend : ChanState → Except SendError Unit
  | ChanState.idle => Except.ok ()
  | ChanState.full => Except.ok ()
  | ChanState.closed => Except.error {}

/-- Byte order of the host. -/
inductive Endian where
  | big
  | little
  deriving DecidableEq, Repr

/-- Byte swap of a 16-bit value. -/
def swap16 (v : Nat) : Nat :=
  v % 256 * 256 + v / 256 % 256

/-- Byte swap of a 32-bit value. -/
def swap32 (v : Nat) : Nat :=
  v % 256 * 16777216 + v / 256 % 256 * 65536 + v / 65536 % 256 * 256 +
    v / 16777216 % 256

/-- Rust `u32::from_be`: identity on a big-endian host, byte swap on a
little-endian host. -/
def u32_from_be : Endian → Nat → Nat
  | Endian.big, v => v
  | Endian.little, v => swap32 v

/-- Rust `u16::to_be`: identity on a big-endian host, byte swap on a
little-endian host. -/
def u16_to_be : Endian → Nat → Nat
  | Endian.big, v => v
  | Endian.little, v => swap16 v

/-- Rust `u8::to_be`: the identity on either host (a single byte has
nothing to swap). -/
def u8_to_be : Endian → Nat → Nat
  | _, v => v

/-- The host-order value of a 16-bit `sockaddr` field whose in-memory
bytes hold `x` in network (big-endian) byte order. -/
def hostVal16 : Endian → Nat → Nat
  | Endian.big, x => x
  | Endian.little, x => swap16 x

/-- The host-order value of a 32-bit `sockaddr` field whose in-memory
bytes hold `x` in network (big-endian) byte order. -/
def hostVal32 : Endian → Nat → Nat
  | Endian.big, x => x
  | Endian.little, x => swap32 x

/-- The fields of the `sockaddr_in` returned by the `OriginalDst`
socket-option query, as host-order values. -/
structure SockaddrIn where
  sin_addr : Nat
  sin_port : Nat
  deriving DecidableEq, Repr

/-- The fields of the `sockaddr_in6` returned by the `Ip6tOriginalDst`
socket-option query: `s6_addr` is the 16-byte address in network byte
order, `sin6_port` a host-order reading of the 16-bit port field. -/
structure SockaddrIn6 where
  s6_addr : List Nat
  sin6_port : Nat
  deriving DecidableEq, Repr

/-- Modelled from the spec: `dst_ip_as_string` for IPv4 — the decimal
dotted-quad rendering of the address (the standard library `Display`
for `Ipv4Addr`). -/
def ipv4ToString (v : Nat) : String :=
  Nat.repr (v / 16777216 % 256) ++ "." ++ Nat.repr (v / 65536 % 256) ++ "." ++
    Nat.repr (v / 256 % 256) ++ "." ++ Nat.repr (v % 256)

/-- The 16-bit groups of a 16-byte IPv6 address (network byte order,
most significant byte of each group first). -/
def groupsOfBytes : List Nat → List Nat
  | b0 :: b1 :: rest => (b0 * 256 + b1) :: groupsOfBytes rest
  | _ => []

/-- One IPv6 group in lowercase hexadecimal without leading zeros. -/
def hexGroup (n : Nat) : String :=
  String.mk (Nat.toDigits 16 n)

/-- Length of the run of zero groups at the head of the list. -/
def zeroRunLen : List Nat → Nat
  | 0 :: rest => 1 + zeroRunLen rest
  | _ => 0

/-- Scan for the leftmost longest run of zero groups: returns
`(start, len)`, preferring earlier starts on ties (`len = 0` if there is
no zero group). -/
def bestZeroRunAux : List Nat → Nat → Nat × Nat → Nat × Nat
  | [], _, best => best
  | g :: rest, i, best =>
    let run := if g = 0 then 1 + zeroRunLen rest else 0
    bestZeroRunAux rest (i + 1) (if best.2 < run then (i, run) else best)

/-- The leftmost longest run of zero groups of an IPv6 address. -/
def bestZeroRun (gs : List Nat) : Nat × Nat :=
  bestZeroRunAux gs 0 (0, 0)

/-- Groups joined with `:`. -/
def joinGroups (gs : List Nat) : String :=
  String.intercalate ":" (gs.map hexGroup)

/-- Modelled from the spec: `dst_ip_as_string` for IPv6 — the RFC 5952
rendering used by the standard library `Display` for `Ipv6Addr`:
lowercase hex groups, the leftmost longest run of at least two zero
groups compressed to `::` (the special form for IPv4-mapped addresses is
not modelled). -/
def ipv6ToString (gs : List Nat) : String :=
  let best := bestZeroRun gs
  if 2 ≤ best.2 then
    joinGroups (gs.take best.1) ++ "::" ++ joinGroups (gs.drop (best.1 + best.2))
  else joinGroups gs

/-- The two family-specific original-destination socket options
(client.rs line 9). -/
inductive SockOptQuery where
  | originalDst
  | ip6tOriginalDst
  deriving DecidableEq, Repr

/-- Address family of a listener's bind address. -/
inductive AddrFamily where
  | v4
  | v6
  deriving DecidableEq, Repr

/-- The socket-option query the forwarder issues, selected by matching on
the listener's bind address (client.rs lines 373-384): `OriginalDst` for
a `SocketAddr::V4`, `Ip6tOriginalDst` for a `SocketAddr::V6`. -/
def queryForFamily : AddrFamily → SockOptQuery
  | AddrFamily.v4 => SockOptQuery.originalDst
  | AddrFamily.v6 => SockOptQuery.ip6tOriginalDst

/-- The `(addr, port)` the forwarder computes from a v4 query result
(client.rs lines 377-381):
`Ipv4Addr::from(u32::from_be(a.sin_addr.s_addr)).to_string()` and
`a.sin_port.to_be()`. -/
def decodeV4 (e : Endian) (a : SockaddrIn) : String × Nat :=
  (ipv4ToString (u32_from_be e a.sin_addr), u16_to_be e a.sin_port)

/-- The `(addr, port)` the forwarder computes from a v6 query result
(client.rs lines 384-399): the first 8 bytes of `s6_addr` are rewritten
in place with `u8::to_be` (the identity), the resulting 16 bytes feed
`Ipv6Addr::from(..).to_string()`, and the port is `a.sin6_port.to_be()`. -/
def decodeV6 (e : Endian) (a : SockaddrIn6) : String × Nat :=
  let b := (a.s6_addr.take 8).map (u8_to_be e) ++ a.s6_addr.drop 8
  (ipv6ToString (groupsOfBytes b), u16_to_be e a.sin6_port)

/-- The SOCKS5 CONNECT request the forwarder issues
(client.rs lines 405-410): `Socks5Stream::connect(socks_addr, addr, port,
config)` with `skip_auth` set. -/
structure SocksConnect where
  proxy : String
  targetHost : String
  targetPort : Nat
  skipAuth : Bool
  deriving DecidableEq, Repr

/-- The forwarder's destination recovery and SOCKS5 CONNECT
(client.rs lines 373-410): the listener's family selects the query, the
matching sockaddr is decoded, and the CONNECT is issued to `socks_addr`
with exactly the decoded string and port. -/
def forwarderConnect (e : Endian) (socksAddr : String) (fam : AddrFamily)
    (a4 : SockaddrIn) (a6 : SockaddrIn6) : SocksConnect :=
  let p :=
    match fam with
    | AddrFamily.v4 => decodeV4 e a4
    | AddrFamily.v6 => decodeV6 e a6
  { proxy := socksAddr, targetHost := p.1, targetPort := p.2, skipAuth := true }

/-- The `sockaddr_in` the kernel hands back when the original destination
is `(ip, port)`: both fields hold their values in network byte order,
read back as host-order numbers. -/
def origDstV4 (e : Endian) (ip port : Nat) : SockaddrIn :=
  { sin_addr := hostVal32 e ip, sin_port := hostVal16 e port }

/-- The `sockaddr_in6` the kernel hands back when the original
destination is the 16-byte address `bytes` and port `port`. -/
def origDstV6 (e : Endian) (bytes : List Nat) (port : Nat) : SockaddrIn6 :=
  { s6_addr := bytes, sin6_port := hostVal16 e port }

/-- Exit status of the spawned ssh child. -/
structure ExitStatus where
  success : Bool
  deriving DecidableEq, Repr

/-- The program the tunnel supervisor spawns (client.rs line 229). -/
def sshProgram : String := "ssh"

/-- An IPv4 or IPv6 socket address, for rendering `socks.to_string()`. -/
inductive SockAddr where
  | v4 (ip : Nat) (port : Nat)
  | v6 (groups : List Nat) (port : Nat)
  deriving DecidableEq, Repr

/-- Modelled from the spec: the standard rendering of a socket address
(`SocketAddr::to_string`): `ip:port` for v4, `[ip]:port` for v6. -/
def sockAddrToString : SockAddr → String
  | SockAddr.v4 ip port => ipv4ToString ip ++ ":" ++ Nat.repr port
  | SockAddr.v6 gs port => "[" ++ ipv6ToString gs ++ "]:" ++ Nat.repr port

/-- The argument vector the tunnel supervisor passes to the child
(client.rs lines 222-227): `["-D", socks.to_string(), "-N", remote]`. -/
def sshSpawnArgs (socks : SockAddr) (remote : String) : List String :=
  ["-D", sockAddrToString socks, "-N", remote]

/-- The first event the supervisor's `select!` observes
(client.rs lines 238-261): either the control channel yields (a Shutdown
message or channel closure), carrying the result of the `child.kill()`
that follows, or the child exits first, carrying the `child.wait()`
result. -/
inductive SshEvent where
  | shutdownRequested (kill : Except String Unit)
  | childExited (status : Except String ExitStatus)
  deriving DecidableEq, Repr

/-- The supervisor task's result (client.rs lines 238-261): on a shutdown
request, kill the child and return `Ok` (propagating only a kill error,
never the child's exit status); on child exit, `Ok` for a successful
status, the error `"ssh failed"` otherwise; a `wait` error propagates. -/
def run_ssh_supervise : SshEvent → Except String Unit
  | SshEvent.shutdownRequested (Except.ok ()) => Except.ok ()
  | SshEvent.shutdownRequested (Except.error e) => Except.error e
  | SshEvent.childExited (Except.ok rc) =>
    if rc.success then Except.ok () else Except.error "ssh failed"
  | SshEvent.childExited (Except.error e) => Except.error e

theorem swap16_eq (v : Nat) (h : v < 65536) :
    swap16 v = v % 256 * 256 + v / 256 := by
  unfold swap16
  omega

theorem swap16_swap16 (v : Nat) (h : v < 65536) : swap16 (swap16 v) = v := by
  rw [swap16_eq v h]
  have hw : v % 256 * 256 + v / 256 < 65536 := by omega
  rw [swap16_eq _ hw]
  omega

theorem swap16_lt (v : Nat) : swap16 v < 65536 := by
  unfold swap16
  omega

theorem swap32_as_swap16 (v : Nat) :
    swap32 v = swap16 (v % 65536) * 65536 + swap16 (v / 65536) := by
  unfold swap32 swap16
  omega

theorem swap32_swap32 (v : Nat) (h : v < 4294967296) : swap32 (swap32 v) = v := by
  rw [swap32_as_swap16 v, swap32_as_swap16]
  have hH : swap16 (v / 65536) < 65536 := swap16_lt _
  have hL : swap16 (v % 65536) < 65536 := swap16_lt _
  have hmod : (swap16 (v % 65536) * 65536 + swap16 (v / 65536)) % 65536 =
      swap16 (v / 65536) := by omega
  have hdiv : (swap16 (v % 65536) * 65536 + swap16 (v / 65536)) / 65536 =
      swap16 (v % 65536) := by omega
  rw [hmod, hdiv, swap16_swap16 _ (by omega), swap16_swap16 _ (by omega)]
  omega

theorem u16_to_be_hostVal16 (e : Endian) (p : Nat) (h : p < 65536) :
    u16_to_be e (hostVal16 e p) = p := by
  cases e
  · rfl
  · exact swap16_swap16 p h

theorem u32_from_be_hostVal32 (e : Endian) (v : Nat) (h : v < 4294967296) :
    u32_from_be e (hostVal32 e v) = v := by
  cases e
  · rfl
  · exact swap32_swap32 v h

theorem decodeV4_origDstV4 (e : Endian) (ip port : Nat)
    (hip : ip < 4294967296) (hport : port < 65536) :
    decodeV4 e (origDstV4 e ip port) = (ipv4ToString ip, port) := by
  unfold decodeV4 origDstV4
  rw [u32_from_be_hostVal32 e ip hip, u16_to_be_hostVal16 e port hport]

theorem decodeV6_origDstV6 (e : Endian) (bytes : List Nat) (port : Nat)
    (hport : port < 65536) :
    decodeV6 e (origDstV6 e bytes port) =
      (ipv6ToString (groupsOfBytes bytes), port) := by
  unfold decodeV6 origDstV6
  have hmap : (bytes.take 8).map (u8_to_be e) = bytes.take 8 := by
    have : u8_to_be e = fun v => v := rfl
    rw [this, List.map_id']
  simp only [hmap, List.take_append_drop]
  rw [u16_to_be_hostVal16 e port hport]

/-- The environment of Claim C1's failing execution: the firewall setup
sequence runs to completion, the ssh supervisor task completes first and
with an error. -/
def c1Env : MainEnv :=
  { exec := fun _ => Except.ok ()
    plan := { setup := Except.ok [{ line := "iptables -t nat -N sshuttle" }]
              restore := Except.ok [{ line := "iptables -t nat -X sshuttle" }] }
    winner := SelectWinner.ssh
    sshJoin := Except.ok (Except.error { message := "ssh failed" })
    clientResult := Except.ok () }

/-- Claim C1: the claim states that whenever the firewall setup command
sequence ran to completion, the restore sequence is executed before
`main` returns, regardless of an error from the ssh supervisor or client
task.  The code violates this: in `main` (client.rs lines 152-167) the
`select!` arms end in `res??` resp. `res?`, so an error from either task
returns from `main` at once, skipping `shutdown_commands.run_all()`
(line 176).  This theorem evaluates the model at the failing input: setup
runs to completion, the ssh supervisor task fails, and `main` returns the
error with the restore command never executed. -/
theorem c1_restore_skipped_on_ssh_error :
    Client.main c1Env =
      ([{ line := "iptables -t nat -N sshuttle" }],
        Except.error { message := "std::io::Error: ssh failed" }) ∧
    ({ line := "iptables -t nat -X sshuttle" } : Command) ∉ (Client.main c1Env).1 := by
  exact ⟨rfl, by decide⟩

/-- The environment of Claim C3's failing execution: the second of three
setup commands exits non-zero. -/
def c3Env : MainEnv :=
  { exec := fun c =>
      if c.line = "iptables -t nat -A sshuttle -j REDIRECT"
      then Except.error { message := "exit status 1" }
      else Except.ok ()
    plan := { setup := Except.ok
                [{ line := "iptables -t nat -N sshuttle" },
                  { line := "iptables -t nat -A sshuttle -j REDIRECT" },
                  { line := "iptables -t nat -A OUTPUT -j sshuttle" }]
              restore := Except.ok [{ line := "iptables -t nat -X sshuttle" }] }
    winner := SelectWinner.ssh
    sshJoin := Except.ok (Except.ok ())
    clientResult := Except.ok () }

/-- Claim C3: the claim states that when the setup sequence fails partway,
the coordinator still runs the precomputed restore sequence before
returning the setup error.  The code violates this: the failure
propagates out of `start_firewall` through `commands.run_all().await?`
(client.rs line 305) and out of `main` through the `?` at line 133, and
no restore command is ever run (the restore sequence was computed at
line 303 but is only returned on success).  This theorem evaluates the
model at the failing input: the second setup command fails, `main`
returns the propagated `CommandError`, the third setup command and the
restore command are never executed. -/
theorem c3_restore_skipped_on_setup_failure :
    Client.main c3Env =
      ([{ line := "iptables -t nat -N sshuttle" },
        { line := "iptables -t nat -A sshuttle -j REDIRECT" }],
        Except.error { message := "CommandError: exit status 1" }) ∧
    ({ line := "iptables -t nat -X sshuttle" } : Command) ∉ (Client.main c3Env).1 ∧
    ({ line := "iptables -t nat -A OUTPUT -j sshuttle" } : Command) ∉ (Client.main c3Env).1 := by
  exact ⟨rfl, by decide, by decide⟩

/-- Claim C2: the claim states that the splice loop delivers to each peer
exactly the bytes read from the other peer.  The code violates this in
the remote-to-local direction: the `Ok(n)` arm of the remote read branch
(client.rs line 445) writes `&local_buf[..n]` instead of
`&remote_buf[..n]`.  This theorem evaluates the model at the failing
input: the remote peer sends the two bytes `[9, 9]` as the first event,
yet the bytes written to the local socket are `[0, 0]` — the untouched
prefix of `local_buf` — and not `[9, 9]`. -/
theorem c2_remote_bytes_not_delivered :
    (spliceRun spliceInit [SpliceEv.remoteRead (ReadRes.data [9, 9])]).1.writtenLocal
        = [0, 0] ∧
    ([0, 0] : List Nat) ≠ [9, 9] := by
  exact ⟨rfl, by decide⟩

/-- Counterexample to Claim C5: when the control channel is closed, the
interrupt handler's `blocking_send` fails, and the `.expect(..)` at
client.rs lines 232-234 panics with "Could not send signal on channel."
instead of ignoring the failure. -/
theorem c5_counterexample_closed_channel_panics :
    ctrlcHandler (blockingSend ChanState.closed) =
      HandlerOutcome.panicked "Could not send signal on channel." := rfl

/-- Claim C5 (amended): the handler's send of the Shutdown token succeeds
without panicking when the channel has free capacity, and also when the
channel is full (`blocking_send` waits for capacity); but when the
channel is closed the send fails and the handler panics via `expect` —
a failed send is not ignored. -/
theorem c5_amended_handler_panics_exactly_when_closed :
    ∀ st : ChanState,
      ctrlcHandler (blockingSend st) =
        if st = ChanState.closed
        then HandlerOutcome.panicked "Could not send signal on channel."
        else HandlerOutcome.ok := by
  intro st
  cases st <;> rfl

/-- Claim C4: for every accepted connection, the family-aware
original-destination query — `OriginalDst` for a v4 listener,
`Ip6tOriginalDst` for a v6 listener, selected by the listener's bind
address family — feeds the SOCKS5 CONNECT with exactly the string
rendering of the recovered ip and exactly the recovered port, on either
host byte order: `u32::from_be` / `u16::to_be` undo the network byte
order of `sockaddr_in`, and the in-place `u8::to_be` pass over `s6_addr`
leaves the network-ordered bytes intact. -/
theorem c4_connect_requests_original_destination
    (e : Endian) (socksAddr : String) (ip port : Nat) (bytes : List Nat)
    (port6 : Nat) (a4 : SockaddrIn) (a6 : SockaddrIn6)
    (hip : ip < 4294967296) (hport : port < 65536) (hport6 : port6 < 65536) :
    queryForFamily AddrFamily.v4 = SockOptQuery.originalDst ∧
    queryForFamily AddrFamily.v6 = SockOptQuery.ip6tOriginalDst ∧
    forwarderConnect e socksAddr AddrFamily.v4 (origDstV4 e ip port) a6 =
      { proxy := socksAddr
        targetHost := ipv4ToString ip
        targetPort := port
        skipAuth := true } ∧
    forwarderConnect e socksAddr AddrFamily.v6 a4 (origDstV6 e bytes port6) =
      { proxy := socksAddr
        targetHost := ipv6ToString (groupsOfBytes bytes)
        targetPort := port6
        skipAuth := true } := by
  refine ⟨rfl, rfl, ?_, ?_⟩
  · unfold forwarderConnect
    rw [decodeV4_origDstV4 e ip port hip hport]
  · unfold forwarderConnect
    rw [decodeV6_origDstV6 e bytes port6 hport6]

/-- Witness for Claim C4 at a concrete input: a little-endian host, the
original v4 destination 10.1.2.3:80 and the original v6 destination
[2001:db8::1]:443; the renderings are also evaluated. -/
theorem c4_witness :
    (queryForFamily AddrFamily.v4 = SockOptQuery.originalDst ∧
      queryForFamily AddrFamily.v6 = SockOptQuery.ip6tOriginalDst ∧
      forwarderConnect Endian.little "127.0.0.1:1080" AddrFamily.v4
          (origDstV4 Endian.little 167838211 80)
          (origDstV6 Endian.little
            [32, 1, 13, 184, 0, 0, 0, 0, 0, 0, 0, 0, 0, 0, 0, 1] 443) =
        { proxy := "127.0.0.1:1080"
          targetHost := ipv4ToString 167838211
          targetPort := 80
          skipAuth := true } ∧
      forwarderConnect Endian.little "127.0.0.1:1080" AddrFamily.v6
          (origDstV4 Endian.little 167838211 80)
          (origDstV6 Endian.little
            [32, 1, 13, 184, 0, 0, 0, 0, 0, 0, 0, 0, 0, 0, 0, 1] 443) =
        { proxy := "127.0.0.1:1080"
          targetHost := ipv6ToString (groupsOfBytes
            [32, 1, 13, 184, 0, 0, 0, 0, 0, 0, 0, 0, 0, 0, 0, 1])
          targetPort := 443
          skipAuth := true }) ∧
    ipv4ToString 167838211 = "10.1.2.3" ∧
    ipv6ToString (groupsOfBytes
      [32, 1, 13, 184, 0, 0, 0, 0, 0, 0, 0, 0, 0, 0, 0, 1]) = "2001:db8::1" := by
  refine ⟨?_, rfl, rfl⟩
  exact c4_connect_requests_original_destination Endian.little "127.0.0.1:1080"
    167838211 80 [32, 1, 13, 184, 0, 0, 0, 0, 0, 0, 0, 0, 0, 0, 0, 1] 443
    (origDstV4 Endian.little 167838211 80)
    (origDstV6 Endian.little
      [32, 1, 13, 184, 0, 0, 0, 0, 0, 0, 0, 0, 0, 0, 0, 1] 443)
    (by decide) (by decide) (by decide)

/-- Counterexample to Claim C6: a failing original-destination query
makes the forwarder task panic — the `.unwrap()` at client.rs line 377 —
rather than being handled locally without a panic as the claim states. -/
theorem c6_counterexample_origdst_failure_panics :
    connTask (Except.error "getsockopt failed: EPERM") (Except.ok ()) [] =
      TaskOutcome.panicked "getsockopt failed: EPERM" := rfl

/-- Claim C6 (amended): a failure to recover the original destination, or
a failure of the SOCKS5 connect, makes the detached per-connection task
panic via `unwrap` (the connection is dropped); no error value reaches
the listener pool or the coordinator — the accept loop's own outcome
depends only on the accept results, not on anything a spawned forwarder
does — but the failure is a panic, not a logged, gracefully handled
error. -/
theorem c6_amended_conn_failures_panic_detached_task :
    (∀ (e : String) (c : Except String Unit) (evs : List SpliceEv),
      connTask (Except.error e) c evs = TaskOutcome.panicked e) ∧
    (∀ (v : String × Nat) (e : String) (evs : List SpliceEv),
      connTask (Except.ok v) (Except.error e) evs = TaskOutcome.panicked e) ∧
    (∀ sched₁ sched₂ : List (Except String ConnSpec),
      sched₁.map (Except.map fun _ => ()) = sched₂.map (Except.map fun _ => ()) →
      (acceptLoop sched₁).1 = (acceptLoop sched₂).1) := by
  refine ⟨fun e c evs => rfl, fun v e evs => rfl, ?_⟩
  intro sched₁
  induction sched₁ with
  | nil =>
    intro sched₂ h
    cases sched₂ with
    | nil => rfl
    | cons y ys => simp at h
  | cons x xs ih =>
    intro sched₂ h
    cases sched₂ with
    | nil => simp at h
    | cons y ys =>
      simp only [List.map_cons, List.cons.injEq] at h
      obtain ⟨h1, h2⟩ := h
      cases x with
      | error ex =>
        cases y with
        | error ey =>
          simp only [Except.map, Except.error.injEq] at h1
          subst h1
          rfl
        | ok cy => simp [Except.map] at h1
      | ok cx =>
        cases y with
        | error ey => simp [Except.map] at h1
        | ok cy =>
          show (acceptLoop (Except.ok cx :: xs)).1 = (acceptLoop (Except.ok cy :: ys)).1
          simp only [acceptLoop]
          exact ih ys h2

/-- Witness for Claim C6 at concrete inputs: a forwarder whose
original-destination query fails panics, and two accept schedules that
agree on accept results but differ in everything per-connection give the
accept loop the same outcome. -/
theorem c6_witness :
    connTask (Except.error "ECONNREFUSED") (Except.ok ())
        [SpliceEv.localRead ReadRes.eof] = TaskOutcome.panicked "ECONNREFUSED" ∧
    (acceptLoop [Except.ok { q := Except.error "EPERM"
                             connect := Except.ok ()
                             events := [] }]).1 =
      (acceptLoop [Except.ok { q := Except.ok ("10.1.2.3", 80)
                               connect := Except.ok ()
                               events := [SpliceEv.localRead ReadRes.eof] }]).1 := by
  refine ⟨c6_amended_conn_failures_panic_detached_task.1 "ECONNREFUSED"
    (Except.ok ()) [SpliceEv.localRead ReadRes.eof], ?_⟩
  exact c6_amended_conn_failures_panic_detached_task.2.2
    [Except.ok { q := Except.error "EPERM", connect := Except.ok (), events := [] }]
    [Except.ok { q := Except.ok ("10.1.2.3", 80), connect := Except.ok ()
                 events := [SpliceEv.localRead ReadRes.eof] }]
    rfl

/-- A concrete accepted connection for the C7 statements. -/
def c7Conn : ConnSpec :=
  { q := Except.ok ("10.1.2.3", 80)
    connect := Except.ok ()
    events := [] }

/-- Counterexample to Claim C7: a transient accept error is not logged
and the loop does not continue — `listener.accept().await.unwrap()`
(client.rs line 349) panics the accept task, so a following ready
connection is never accepted and nothing is surfaced to the coordinator
(the task handle from line 347 is discarded). -/
theorem c7_counterexample_accept_error_stops_loop :
    acceptLoop [Except.error "ECONNABORTED", Except.ok c7Conn] =
      (PoolOutcome.panicked "ECONNABORTED", []) := rfl

/-- Claim C7 (amended): any accept error, transient or fatal, makes the
accept loop task panic via `unwrap`: the loop stops accepting at that
point (every earlier accepted connection did spawn a forwarder, nothing
after the error is processed) and the panic is not surfaced to the
coordinator, whose `run_client` keeps sleeping. -/
theorem c7_amended_any_accept_error_panics_loop :
    ∀ (pre : List (Except String ConnSpec)) (e : String)
      (rest : List (Except String ConnSpec)),
      (∀ x ∈ pre, x.isOk = true) →
      (acceptLoop (pre ++ Except.error e :: rest)).1 = PoolOutcome.panicked e ∧
      (acceptLoop (pre ++ Except.error e :: rest)).2.length = pre.length := by
  intro pre
  induction pre with
  | nil => intro e rest _; exact ⟨rfl, rfl⟩
  | cons x xs ih =>
    intro e rest h
    have hx : x.isOk = true := h x (List.mem_cons_self x xs)
    have hxs : ∀ y ∈ xs, y.isOk = true := fun y hy => h y (List.mem_cons_of_mem x hy)
    cases x with
    | error ex => simp [Except.isOk, Except.toBool] at hx
    | ok cx =>
      have := ih e rest hxs
      refine ⟨?_, ?_⟩
      · show (acceptLoop (Except.ok cx :: (xs ++ Except.error e :: rest))).1 =
          PoolOutcome.panicked e
        simp only [acceptLoop]
        exact this.1
      · show (acceptLoop (Except.ok cx :: (xs ++ Except.error e :: rest))).2.length =
          xs.length + 1
        simp only [acceptLoop, List.length_cons]
        omega

/-- Witness for Claim C7 at a concrete input: one successful accept, then
an accept error, then one more pending accept — the loop panics with the
error and exactly one forwarder was spawned. -/
theorem c7_witness :
    (acceptLoop ([Except.ok c7Conn] ++
      Except.error "EMFILE" :: [Except.ok c7Conn])).1 =
        PoolOutcome.panicked "EMFILE" ∧
    (acceptLoop ([Except.ok c7Conn] ++
      Except.error "EMFILE" :: [Except.ok c7Conn])).2.length = 1 := by
  have h := c7_amended_any_accept_error_panics_loop [Except.ok c7Conn] "EMFILE"
    [Except.ok c7Conn] (by intro x hx; simp at hx; subst hx; rfl)
  exact ⟨h.1, h.2⟩

/-- Claim C8: the tunnel child supervisor spawns the child with exactly
the arguments `[-D, socks_addr, -N, remote]` (client.rs lines 222-227);
on a shutdown request it kills the child and returns the kill result —
never inspecting the child's exit status — and on a child exit it
returns success for a successful status, the tunnel failure
"ssh failed" for a non-zero one, and propagates a wait error.  The
supervisor succeeds exactly when the shutdown-and-kill path completed or
the child exited successfully. -/
theorem c8_ssh_supervisor_contract :
    (∀ (socks : SockAddr) (remote : String),
      sshSpawnArgs socks remote = ["-D", sockAddrToString socks, "-N", remote]) ∧
    (∀ k : Except String Unit,
      run_ssh_supervise (SshEvent.shutdownRequested k) = k) ∧
    (∀ rc : ExitStatus,
      run_ssh_supervise (SshEvent.childExited (Except.ok rc)) =
        if rc.success then Except.ok () else Except.error "ssh failed") ∧
    (∀ e : String,
      run_ssh_supervise (SshEvent.childExited (Except.error e)) = Except.error e) ∧
    (∀ ev : SshEvent,
      run_ssh_supervise ev = Except.ok () ↔
        ev = SshEvent.shutdownRequested (Except.ok ()) ∨
        ev = SshEvent.childExited (Except.ok { success := true })) := by
  refine ⟨fun socks remote => rfl, ?_, fun rc => rfl, fun e => rfl, ?_⟩
  · intro k
    cases k with
    | ok u => cases u; rfl
    | error e => rfl
  · intro ev
    cases ev with
    | shutdownRequested k =>
      cases k with
      | ok u => cases u; simp [run_ssh_supervise]
      | error e => simp [run_ssh_supervise]
    | childExited st =>
      cases st with
      | ok rc =>
        obtain ⟨b⟩ := rc
        cases b <;> simp [run_ssh_supervise]
      | error e => simp [run_ssh_supervise]

/-- Claim C9: the splice is full-duplex with half-close.  An EOF (or a
read error) on one socket shuts down the opposite socket's write half;
a data event on either direction still produces a write to the
counterpart whatever the flags are, so the open direction keeps being
copied; and the loop breaks early only in a state where both halves have
been shut down. -/
theorem c9_half_close_full_duplex :
    (∀ s : SpliceState,
      (spliceStep s (SpliceEv.localRead ReadRes.eof)).shutdownRemote = true ∧
      (spliceStep s (SpliceEv.remoteRead ReadRes.eof)).shutdownLocal = true) ∧
    (∀ (s : SpliceState) (m : String),
      (spliceStep s (SpliceEv.localRead (ReadRes.ioErr m))).shutdownRemote = true ∧
      (spliceStep s (SpliceEv.remoteRead (ReadRes.ioErr m))).shutdownLocal = true) ∧
    (∀ (s : SpliceState) (bs : List Nat),
      (spliceStep s (SpliceEv.localRead (ReadRes.data bs))).writtenRemote =
        s.writtenRemote ++ bs) ∧
    (∀ (s : SpliceState) (bs : List Nat),
      (spliceStep s (SpliceEv.remoteRead (ReadRes.data bs))).writtenLocal.length =
        s.writtenLocal.length + min bs.length s.localBuf.length) ∧
    (∀ (s : SpliceState) (evs : List SpliceEv),
      (spliceRun s evs).2 ≠ [] →
      (spliceRun s evs).1.shutdownLocal = true ∧
      (spliceRun s evs).1.shutdownRemote = true) := by
  refine ⟨fun s => ⟨rfl, rfl⟩, fun s m => ⟨rfl, rfl⟩, ?_, ?_, ?_⟩
  · intro s bs
    show s.writtenRemote ++ (bs ++ s.localBuf.drop bs.length).take bs.length =
      s.writtenRemote ++ bs
    rw [List.take_left]
  · intro s bs
    show (s.writtenLocal ++ s.localBuf.take bs.length).length =
      s.writtenLocal.length + min bs.length s.localBuf.length
    rw [List.length_append, List.length_take]
  · intro s evs
    induction evs generalizing s with
    | nil => intro h; exact absurd rfl h
    | cons e rest ih =>
      intro h
      show (spliceRun s (e :: rest)).1.shutdownLocal = true ∧
        (spliceRun s (e :: rest)).1.shutdownRemote = true
      simp only [spliceRun] at h ⊢
      by_cases hb : ((spliceStep s e).shutdownLocal && (spliceStep s e).shutdownRemote) = true
      · simp only [hb, if_true]
        exact ⟨(Bool.and_eq_true _ _).mp hb |>.1, (Bool.and_eq_true _ _).mp hb |>.2⟩
      · simp only [hb, if_false] at h ⊢
        exact ih (spliceStep s e) h

/-- Witness for Claim C9 at a concrete input: local EOF, then remote EOF,
with one event left pending — the loop breaks early and both halves are
shut down. -/
theorem c9_witness :
    (spliceRun spliceInit
      [SpliceEv.localRead ReadRes.eof, SpliceEv.remoteRead ReadRes.eof,
        SpliceEv.remoteRead (ReadRes.data [1])]).1.shutdownLocal = true ∧
    (spliceRun spliceInit
      [SpliceEv.localRead ReadRes.eof, SpliceEv.remoteRead ReadRes.eof,
        SpliceEv.remoteRead (ReadRes.data [1])]).1.shutdownRemote = true := by
  exact c9_half_close_full_duplex.2.2.2.2 spliceInit
    [SpliceEv.localRead ReadRes.eof, SpliceEv.remoteRead ReadRes.eof,
      SpliceEv.remoteRead (ReadRes.data [1])] (by decide)

/-- Claim C10: `run_client` never returns successfully — every completion
of it carries an error (from a failed bind); after all binds succeed it
diverges in `loop { sleep }` (client.rs lines 470-472), modelled as
`none`.  Hence the coordinator's `select!` branch for the client task can
never complete with `Ok`. -/
theorem c10_run_client_never_ok :
    ∀ (binds : List (Except IoError Unit)) (r : Except ClientError Unit),
      run_client binds = some r → ∃ e, r = Except.error e := by
  intro binds
  induction binds with
  | nil => intro r h; exact absurd h (by simp [run_client])
  | cons b rest ih =>
    intro r h
    cases b with
    | error e =>
      refine ⟨clientErrorOfIo e, ?_⟩
      have : some (Except.error (clientErrorOfIo e) : Except ClientError Unit) = some r := h
      exact (Option.some.injEq _ _ ▸ this).symm
    | ok u =>
      cases u
      exact ih r h

/-- Witness for Claim C10 at a concrete input: a failed bind completes
`run_client` with an error value. -/
theorem c10_witness :
    ∃ e, (Except.error (clientErrorOfIo { message := "EADDRINUSE" }) :
      Except ClientError Unit) = Except.error e :=
  c10_run_client_never_ok [Except.error { message := "EADDRINUSE" }]
    (Except.error (clientErrorOfIo { message := "EADDRINUSE" })) rfl

end Client
